import Mathlib

/-!
Shallow embedding of the song record store of this repository, covering the two
implementations:

* `Prof` embeds `api-python-profesional` — the pydantic models in
  `models/song.py` (`SongBase`/`SongCreate`/`SongUpdate`/`Song`), the
  `DatabaseService` persistence and CRUD layer in `services/database.py`, and the
  pagination logic of the `GET /songs` handler in `app.py`.
* `Mini` embeds `api-python/main.py` — raw-dict records, `write_data`,
  `add_song`, `update_song`, `delete_song`.

Conventions: timestamps are natural numbers (the claims only need that the
stamp is whatever `now` is at write time); the filesystem is modelled by the
current on-disk document plus a boolean `fsOk` saying whether a write attempt
succeeds; Python `str.strip()` is modelled on the character list of the string;
`ñ` is not a valid Lean identifier character, so the source field `año` is
spelled `anio`.
-/

set_option maxRecDepth 8192

namespace SongsCrud

/-- Whitespace stripped by Python `str.strip()` (ASCII whitespace). -/
def isPySpace (c : Char) : Bool :=
  c = ' ' ∨ c = '\t' ∨ c = '\n' ∨ c = '\r' ∨ c = '\x0b' ∨ c = '\x0c'

/-- Python `s.strip()`: drop leading whitespace, then trailing whitespace. -/
def pyStrip (s : String) : String :=
  ⟨List.rdropWhile isPySpace (List.dropWhile isPySpace s.data)⟩

/-- Python `max(l, default=d)`: maximum of a nonempty list, else the default. -/
def pyMax (l : List Int) (d : Int) : Int :=
  match l with
  | [] => d
  | x :: xs => xs.foldl max x

namespace Prof

/-- The complete `Song` pydantic model (`models/song.py`): the four content
fields of `SongBase` plus the database fields `id`, `uuid`, `created_at`,
`updated_at`. -/
structure Song where
  id : Int
  uuid : String
  titulo : String
  artista : String
  album : Option String
  anio : Option Int
  created_at : Nat
  updated_at : Nat
deriving Repr, DecidableEq

/-- The `metadata` object of the persisted document
(`DatabaseService._get_metadata` plus the keys stamped by `_write_data`). -/
structure Metadata where
  version : String
  created_at : Nat
  last_updated : Option Nat
  total_records : Int
deriving Repr, DecidableEq

/-- The whole persisted JSON document: `{songs: [...], metadata: {...}}`. -/
structure Document where
  songs : List Song
  metadata : Metadata
deriving Repr, DecidableEq

/-- Validation failures raised by the pydantic models, one constructor per
offending field and violated constraint. -/
inductive ValErr where
  | missingTitulo
  | missingArtista
  | tituloLength
  | artistaLength
  | albumLength
  | anioRange
  | tituloEmptyAfterStrip
  | artistaEmptyAfterStrip
  | noFieldsForUpdate
deriving Repr, DecidableEq

/-- The exception taxonomy of `services/database.py`. -/
inductive DBError where
  | databaseReadError
  | databaseWriteError
  | songNotFound (id : Int)
deriving Repr, DecidableEq

/-- A raw JSON body for create as the pydantic model sees it: the four declared
fields, plus client-supplied `id`/`uuid`/`created_at` keys, which pydantic
models ignore (extra keys are dropped on parse). -/
structure RawCreate where
  titulo : Option String
  artista : Option String
  album : Option String
  anio : Option Int
  id : Option Int
  uuid : Option String
  created_at : Option Nat
deriving Repr, DecidableEq

/-- A raw JSON body for update; same shape as `RawCreate`. -/
structure RawUpdate where
  titulo : Option String
  artista : Option String
  album : Option String
  anio : Option Int
  id : Option Int
  uuid : Option String
  created_at : Option Nat
deriving Repr, DecidableEq

/-- A successfully parsed `SongCreate` payload (normalized fields). -/
structure SongCreate where
  titulo : String
  artista : String
  album : Option String
  anio : Option Int
deriving Repr, DecidableEq

/-- A successfully parsed `SongUpdate` payload (only the supplied fields). -/
structure SongUpdate where
  titulo : Option String
  artista : Option String
  album : Option String
  anio : Option Int
deriving Repr, DecidableEq

/-- A required constrained string field of `SongBase` as pydantic runs it:
`Field(min_length=1, max_length=maxLen)` is checked on the raw value first,
then the `strip_whitespace` validator, then `no_empty_after_strip`. -/
def checkRequiredStr (v : Option String) (maxLen : Nat)
    (eMissing eLen eEmpty : ValErr) : Except ValErr String :=
  match v with
  | none => .error eMissing
  | some s =>
    if s.length < 1 ∨ maxLen < s.length then .error eLen
    else if (pyStrip s).length = 0 then .error eEmpty
    else .ok (pyStrip s)

/-- An optional constrained string field of `SongUpdate`: raw length bounds,
then `strip_whitespace`; note there is no `no_empty_after_strip` validator on
`SongUpdate`. -/
def checkOptStr (v : Option String) (maxLen : Nat) (eLen : ValErr) :
    Except ValErr (Option String) :=
  match v with
  | none => .ok none
  | some s =>
    if s.length < 1 ∨ maxLen < s.length then .error eLen
    else .ok (some (pyStrip s))

/-- The `album` field: optional, `max_length=200`, no strip validator. -/
def checkAlbum (v : Option String) : Except ValErr (Option String) :=
  match v with
  | none => .ok none
  | some s => if 200 < s.length then .error .albumLength else .ok (some s)

/-- The `año` field: optional, `ge=1800`, `le=datetime.now().year`; the upper
bound is the year captured when the model class was defined, passed here as
`cy`. -/
def checkAnio (cy : Int) (v : Option Int) : Except ValErr (Option Int) :=
  match v with
  | none => .ok none
  | some y => if y < 1800 ∨ cy < y then .error .anioRange else .ok (some y)

/-- `SongCreate(**body)`: validate and normalize a create payload
(`validate_create` of the spec). Extra keys (`id`, `uuid`, `created_at`) are
never read. -/
def validate_create (cy : Int) (p : RawCreate) : Except ValErr SongCreate :=
  match checkRequiredStr p.titulo 200 .missingTitulo .tituloLength .tituloEmptyAfterStrip with
  | .error e => .error e
  | .ok t =>
    match checkRequiredStr p.artista 100 .missingArtista .artistaLength .artistaEmptyAfterStrip with
    | .error e => .error e
    | .ok a =>
      match checkAlbum p.album with
      | .error e => .error e
      | .ok al =>
        match checkAnio cy p.anio with
        | .error e => .error e
        | .ok y => .ok ⟨t, a, al, y⟩

/-- `SongUpdate(**body)`: validate a partial update payload; the
`at_least_one_field` root validator rejects a payload in which all four
recognized fields are absent (`validate_update` of the spec). -/
def validate_update (cy : Int) (p : RawUpdate) : Except ValErr SongUpdate :=
  match checkOptStr p.titulo 200 .tituloLength with
  | .error e => .error e
  | .ok t =>
    match checkOptStr p.artista 100 .artistaLength with
    | .error e => .error e
    | .ok a =>
      match checkAlbum p.album with
      | .error e => .error e
      | .ok al =>
        match checkAnio cy p.anio with
        | .error e => .error e
        | .ok y =>
          if t.isNone ∧ a.isNone ∧ al.isNone ∧ y.isNone then .error .noFieldsForUpdate
          else .ok ⟨t, a, al, y⟩

/-- One `SongBase` string field of `Song(**d)` when a stored or merged record
is re-parsed: raw length bounds, strip, non-empty-after-strip. -/
def revalidateStr (maxLen : Nat) (s : String) : Option String :=
  if s.length < 1 ∨ maxLen < s.length then none
  else if (pyStrip s).length = 0 then none
  else some (pyStrip s)

/-- Album bound of `Song(**d)`. -/
def checkAlbumOk (v : Option String) : Bool :=
  match v with
  | none => true
  | some s => decide (s.length ≤ 200)

/-- Year bounds of `Song(**d)`. -/
def checkAnioOk (cy : Int) (v : Option Int) : Bool :=
  match v with
  | none => true
  | some y => decide (1800 ≤ y ∧ y ≤ cy)

/-- `Song(**d)`: re-run a record through the `Song` model, as
`DatabaseService.create_song`, `update_song` and `get_all_songs` all do.
`titulo`/`artista` come back stripped; a constraint violation is a parse
failure (`none`). -/
def revalidateSong (cy : Int) (s : Song) : Option Song :=
  match revalidateStr 200 s.titulo, revalidateStr 100 s.artista with
  | some t, some a =>
    if checkAlbumOk s.album ∧ checkAnioOk cy s.anio then
      some { s with titulo := t, artista := a }
    else none
  | _, _ => none

/-- Every stored record re-parses to itself. This holds for every record the
service itself has written, since those are exactly outputs of `Song(**d)`. -/
abbrev StoreOk (cy : Int) (d : Document) : Prop :=
  ∀ s ∈ d.songs, revalidateSong cy s = some s

/-- `DatabaseService.get_all_songs`: parse every stored record, skipping
records that fail to parse. -/
def get_all_songs (cy : Int) (d : Document) : List Song :=
  d.songs.filterMap (revalidateSong cy)

/-- `DatabaseService._write_data`: stamp `metadata.last_updated = now` and
`metadata.total_records = len(songs)`, then atomically replace the file.
`fsOk` models whether the temp-file write and rename succeed; on failure the
on-disk document is untouched and `DatabaseWriteError` surfaces. The
best-effort backup copy does not affect the outcome and is elided. -/
def write_data (disk : Document) (data : Document) (now : Nat) (fsOk : Bool) :
    Document × Except DBError Unit :=
  let stamped : Document :=
    { data with metadata :=
        { data.metadata with last_updated := some now,
                             total_records := (data.songs.length : Int) } }
  if fsOk then (stamped, .ok ()) else (disk, .error .databaseWriteError)

/-- `DatabaseService.create_song`: compute `max(existing ids, default=0) + 1`,
build the record with fresh uuid and timestamps, re-parse it through `Song`,
append and write. A failure after the read surfaces `DatabaseWriteError`. -/
def create_song (cy : Int) (disk : Document) (sc : SongCreate) (uu : String)
    (now : Nat) (fsOk : Bool) : Document × Except DBError Song :=
  let existing_ids := disk.songs.map (fun s => s.id)
  let new_id := pyMax existing_ids 0 + 1
  let song0 : Song :=
    { id := new_id, uuid := uu, titulo := sc.titulo, artista := sc.artista,
      album := sc.album, anio := sc.anio, created_at := now, updated_at := now }
  match revalidateSong cy song0 with
  | none => (disk, .error .databaseWriteError)
  | some song =>
    match write_data disk { disk with songs := disk.songs ++ [song] } now fsOk with
    | (disk2, .ok _) => (disk2, .ok song)
    | (disk2, .error e) => (disk2, .error e)

/-- The field-level merge of `DatabaseService.update_song`: overwrite exactly
the supplied fields, then stamp `updated_at = now`. -/
def mergeUpdate (s : Song) (u : SongUpdate) (now : Nat) : Song :=
  { s with
    titulo := u.titulo.getD s.titulo
    artista := u.artista.getD s.artista
    album := match u.album with | some a => some a | none => s.album
    anio := match u.anio with | some y => some y | none => s.anio
    updated_at := now }

/-- The find-first-index-then-replace loop of `DatabaseService.update_song`:
only the first record whose `id` matches is merged and re-parsed; everything
else is kept as is. A re-parse failure of the merged record is caught by the
generic handler and surfaces as `DatabaseWriteError`. -/
def update_in_list (cy : Int) (songs : List Song) (song_id : Int)
    (u : SongUpdate) (now : Nat) : Except DBError (List Song × Song) :=
  match songs with
  | [] => .error (.songNotFound song_id)
  | s :: rest =>
    if s.id = song_id then
      match revalidateSong cy (mergeUpdate s u now) with
      | none => .error .databaseWriteError
      | some upd => .ok (upd :: rest, upd)
    else
      match update_in_list cy rest song_id u now with
      | .ok (rest2, upd) => .ok (s :: rest2, upd)
      | .error e => .error e

/-- `DatabaseService.update_song` on a given on-disk document. -/
def update_song (cy : Int) (disk : Document) (song_id : Int) (u : SongUpdate)
    (now : Nat) (fsOk : Bool) : Document × Except DBError Song :=
  match update_in_list cy disk.songs song_id u now with
  | .error e => (disk, .error e)
  | .ok (songs2, upd) =>
    match write_data disk { disk with songs := songs2 } now fsOk with
    | (disk2, .ok _) => (disk2, .ok upd)
    | (disk2, .error e) => (disk2, .error e)

/-- `DatabaseService.delete_song`: filter out every record whose `id` matches;
if nothing was removed report `False` without writing, else write. -/
def delete_song (disk : Document) (song_id : Int) (now : Nat) (fsOk : Bool) :
    Document × Except DBError Bool :=
  let remaining := disk.songs.filter (fun s => s.id ≠ song_id)
  if remaining.length = disk.songs.length then
    (disk, .ok false)
  else
    match write_data disk { disk with songs := remaining } now fsOk with
    | (disk2, .ok _) => (disk2, .ok true)
    | (disk2, .error e) => (disk2, .error e)

/-- `DatabaseService.get_song_by_id`: first parsed record with matching id. -/
def get_song_by_id (cy : Int) (disk : Document) (song_id : Int) : Option Song :=
  (get_all_songs cy disk).find? (fun s => s.id = song_id)

/-- The response of the paginated `GET /songs` handler in `app.py`. -/
structure PageResult where
  songs : List Song
  total : Nat
  page : Nat
  per_page : Nat
  has_next : Bool
  has_prev : Bool
deriving Repr, DecidableEq

/-- The pagination logic of `get_songs` in `app.py`, applied to the parsed
song list: `page = max(1, page)`, `per_page = min(100, max(1, per_page))`,
slice `[start : start + per_page]`, `has_next = end < total`,
`has_prev = page > 1`. -/
def get_songs (songs : List Song) (page per_page : Int) : PageResult :=
  let p : Nat := (max 1 page).toNat
  let pp : Nat := (min 100 (max 1 per_page)).toNat
  let total := songs.length
  let start := (p - 1) * pp
  { songs := (songs.drop start).take pp, total := total, page := p,
    per_page := pp, has_next := decide (start + pp < total),
    has_prev := decide (1 < p) }

/-- The `POST /songs` handler core: `SongCreate(**request.json)` followed by
`db_service.create_song`. -/
def create_endpoint (cy : Int) (disk : Document) (p : RawCreate) (uu : String)
    (now : Nat) (fsOk : Bool) : Document × Except (ValErr ⊕ DBError) Song :=
  match validate_create cy p with
  | .error e => (disk, .error (.inl e))
  | .ok sc =>
    match create_song cy disk sc uu now fsOk with
    | (d2, .ok s) => (d2, .ok s)
    | (d2, .error e) => (d2, .error (.inr e))

/-- The `PUT /songs/<id>` handler core: `SongUpdate(**request.json)` followed
by `db_service.update_song`. -/
def update_endpoint (cy : Int) (disk : Document) (song_id : Int) (p : RawUpdate)
    (now : Nat) (fsOk : Bool) : Document × Except (ValErr ⊕ DBError) Song :=
  match validate_update cy p with
  | .error e => (disk, .error (.inl e))
  | .ok u =>
    match update_song cy disk song_id u now fsOk with
    | (d2, .ok s) => (d2, .ok s)
    | (d2, .error e) => (d2, .error (.inr e))

end Prof

namespace Mini

/-- A JSON value, as far as the minimal variant needs it. -/
inductive JVal where
  | jInt (n : Int)
  | jStr (s : String)
  | jBool (b : Bool)
  | jNull
deriving Repr, DecidableEq

/-- A JSON object as a Python dict: association list in insertion order. The
app only builds dicts with unique keys; lemmas that need uniqueness assume it
explicitly. -/
abbrev JObj := List (String × JVal)

/-- Python `d.get(k)` / `d[k]`: first entry with the key. -/
def jget (o : JObj) (k : String) : Option JVal :=
  match o with
  | [] => none
  | (k', v) :: rest => if k' = k then some v else jget rest k

/-- Python `d[k] = v`: replace in place if the key exists, else append. -/
def jset (o : JObj) (k : String) (v : JVal) : JObj :=
  match o with
  | [] => [(k, v)]
  | (k', v') :: rest => if k' = k then (k, v) :: rest else (k', v') :: jset rest k v

/-- Python `d1.update(d2)` and the `{**d1, **d2}` merge. -/
def jupdate (o upd : JObj) : JObj :=
  upd.foldl (fun acc kv => jset acc kv.1 kv.2) o

/-- Python `d.pop(k, None)` (as it affects the dict). -/
def jpop (o : JObj) (k : String) : JObj :=
  o.filter (fun kv => kv.1 ≠ k)

/-- The minimal variant's whole-file document. `read_data` only ever exposes
the `songs` list, but `write_data` dumps whatever dict it is handed, so a
`metadata` member is carried through verbatim when present. -/
structure MDoc where
  songs : List JObj
  metadata : Option JObj
deriving Repr, DecidableEq

def kId : String := "id"

def kTitulo : String := "titulo"

def kArtista : String := "artista"

def kCreatedAt : String := "created_at"

def kUuid : String := "uuid"

def kTotalRecords : String := "total_records"

def kLastUpdated : String := "last_updated"

/-- The minimal `write_data`: dump the document verbatim; any exception is
printed to the console and swallowed, so the caller never learns the write
failed. With `fsOk = false` the on-disk document keeps its old value while the
call still returns normally. -/
def write_data (disk : MDoc) (data : MDoc) (fsOk : Bool) : MDoc :=
  if fsOk then data else disk

/-- The id-generation list of `add_song`: ids of songs whose `id` value is an
int (`isinstance(s.get("id", None), int)`). -/
def intIds (songs : List JObj) : List Int :=
  songs.filterMap (fun s =>
    match jget s kId with
    | some (.jInt n) => some n
    | _ => none)

/-- The `POST /songs` handler `add_song`: minimal validation, id generation,
`new_song = {"id": new_id}; new_song.update(body)`, append, write. Returns the
new on-disk document, the HTTP status and the record echoed to the client. -/
def add_song (disk : MDoc) (body : JObj) (fsOk : Bool) :
    MDoc × Nat × Option JObj :=
  if body.isEmpty then (disk, 400, none)
  else if (jget body kTitulo).isNone ∨ (jget body kArtista).isNone then
    (disk, 400, none)
  else
    let ids := intIds disk.songs
    let new_id : Int :=
      match ids with
      | [] => 1
      | x :: xs => xs.foldl max x + 1
    let new_song := jupdate [(kId, .jInt new_id)] body
    let disk2 := write_data disk { disk with songs := disk.songs ++ [new_song] } fsOk
    (disk2, 201, some new_song)

/-- The search-and-merge loop of the minimal `update_song`: at the first record
whose `id` equals `song_id`, pop `id` from the body and merge
`{**s, **body}`; records after the first match are not visited. -/
def update_loop (songs : List JObj) (song_id : Int) (body : JObj) :
    Option (List JObj × JObj) :=
  match songs with
  | [] => none
  | s :: rest =>
    if jget s kId = some (.jInt song_id) then
      let updated := jupdate s (jpop body kId)
      some (updated :: rest, updated)
    else
      match update_loop rest song_id body with
      | some (rest2, u) => some (s :: rest2, u)
      | none => none

/-- The `PUT /songs/<id>` handler `update_song` of the minimal variant. -/
def update_song (disk : MDoc) (song_id : Int) (body : JObj) (fsOk : Bool) :
    MDoc × Nat × Option JObj :=
  match update_loop disk.songs song_id body with
  | none => (disk, 404, none)
  | some (songs2, updated) =>
    (write_data disk { disk with songs := songs2 } fsOk, 200, some updated)

/-- The `DELETE /songs/<id>` handler `delete_song` of the minimal variant:
404 without any write when no record matches; otherwise filter out every
matching record and write. -/
def delete_song (disk : MDoc) (song_id : Int) (fsOk : Bool) : MDoc × Nat :=
  if disk.songs.any (fun s => jget s kId = some (.jInt song_id)) then
    (write_data disk
      { disk with
        songs := disk.songs.filter (fun s => jget s kId ≠ some (.jInt song_id)) }
      fsOk, 200)
  else (disk, 404)

end Mini

namespace W

/-- Metadata of the concrete stores used by witnesses. -/
def meta0 : Prof.Metadata := ⟨"1.0.0", 0, none, 0⟩

/-- An empty professional store. -/
def d0 : Prof.Document := ⟨[], meta0⟩

/-- A valid, already-normalized create payload. -/
def sc0 : Prof.SongCreate := ⟨"t", "a", none, none⟩

/-- The record `create_song` builds from `sc0` on the empty store at time 5. -/
def s1 : Prof.Song := ⟨1, "u1", "t", "a", none, none, 5, 5⟩

/-- The document persisted by that create. -/
def d0' : Prof.Document := ⟨[s1], ⟨"1.0.0", 0, some 5, 1⟩⟩

def songA : Prof.Song := ⟨1, "ua", "ta", "aa", none, none, 0, 0⟩

/-- A second record that shares id 1 with `songA`. -/
def songB : Prof.Song := ⟨1, "ub", "tb", "ab", none, none, 0, 0⟩

def songC : Prof.Song := ⟨2, "uc", "tc", "ac", none, none, 0, 0⟩

def songD : Prof.Song := ⟨3, "ud", "td", "ad", none, none, 0, 0⟩

/-- A store holding two records with the same id 1. -/
def dDup : Prof.Document := ⟨[songA, songB], meta0⟩

/-- A store holding one record with id 1. -/
def d1 : Prof.Document := ⟨[songA], meta0⟩

/-- A store holding three records (ids 1, 2, 3). -/
def d3 : Prof.Document := ⟨[songA, songC, songD], meta0⟩

/-- An update payload supplying only `album`. -/
def upAlbum : Prof.SongUpdate := ⟨none, none, some "X", none⟩

/-- A raw update body whose title is whitespace only. -/
def ruWS : Prof.RawUpdate := ⟨some "  ", none, none, none, none, none, none⟩

/-- The parsed update `validate_update` produces from `ruWS`. -/
def suWS : Prof.SongUpdate := ⟨some "", none, none, none⟩

/-- A title of raw length 201 whose stripped length is 200. -/
def t201 : String := String.mk (List.replicate 200 'a' ++ [' '])

/-- An empty minimal store. -/
def m0 : Mini.MDoc := ⟨[], none⟩

/-- A minimal create body with the two required fields. -/
def mbody : Mini.JObj := [(Mini.kTitulo, .jStr "t"), (Mini.kArtista, .jStr "a")]

/-- A minimal create body that also smuggles in an `id`. -/
def mbody4 : Mini.JObj :=
  [(Mini.kTitulo, .jStr "t"), (Mini.kArtista, .jStr "a"), (Mini.kId, .jInt 999)]

/-- A stored minimal record with id 1 and a `created_at` value. -/
def msong : Mini.JObj := [(Mini.kId, .jInt 1), (Mini.kCreatedAt, .jStr "2020")]

/-- A one-record minimal store. -/
def mdoc1 : Mini.MDoc := ⟨[msong], none⟩

/-- An update body supplying `created_at`. -/
def mbodyCA : Mini.JObj := [(Mini.kCreatedAt, .jStr "HACK")]

/-- A minimal document whose caller-supplied metadata is wrong on purpose. -/
def m6 : Mini.MDoc := ⟨[], some [(Mini.kTotalRecords, .jInt 999)]⟩

/-- Two minimal records sharing id 7. -/
def mdup : Mini.MDoc :=
  ⟨[[(Mini.kId, .jInt 7), (Mini.kTitulo, .jStr "x")],
    [(Mini.kId, .jInt 7), (Mini.kTitulo, .jStr "y")]], none⟩

end W

end SongsCrud

open SongsCrud

theorem pyStrip_length_le (s : String) : (pyStrip s).length ≤ s.length := by
  have h1 : (List.rdropWhile isPySpace (List.dropWhile isPySpace s.data)).length ≤
      (List.dropWhile isPySpace s.data).length :=
    (List.rdropWhile_prefix isPySpace (List.dropWhile isPySpace s.data)).length_le
  have h2 : (List.dropWhile isPySpace s.data).length ≤ s.data.length :=
    (List.dropWhile_suffix isPySpace).length_le
  exact le_trans h1 h2

theorem dropWhile_rdropWhile_dropWhile (p : Char → Bool) (l : List Char) :
    List.dropWhile p (List.rdropWhile p (List.dropWhile p l)) =
      List.rdropWhile p (List.dropWhile p l) := by
  obtain ⟨t, ht⟩ := List.rdropWhile_prefix p (List.dropWhile p l)
  cases hr : List.rdropWhile p (List.dropWhile p l) with
  | nil => simp
  | cons c r' =>
    have hmc : List.dropWhile p l = c :: (r' ++ t) := by
      rw [← ht, hr]
      simp
    have hpc : p c = false := by
      cases hpc : p c with
      | false => rfl
      | true =>
        have hms : List.dropWhile p (List.dropWhile p l) = List.dropWhile p l :=
          List.dropWhile_idempotent p l
        rw [hmc, List.dropWhile_cons, if_pos hpc] at hms
        have hle : (List.dropWhile p (r' ++ t)).length ≤ (r' ++ t).length :=
          (List.dropWhile_suffix p).length_le
        rw [hms] at hle
        simp at hle
    rw [List.dropWhile_cons, if_neg (by simp [hpc])]

theorem pyStrip_idem (s : String) : pyStrip (pyStrip s) = pyStrip s := by
  show String.mk _ = String.mk _
  rw [pyStrip]
  show String.mk (List.rdropWhile isPySpace (List.dropWhile isPySpace
    (List.rdropWhile isPySpace (List.dropWhile isPySpace s.data)))) = _
  rw [dropWhile_rdropWhile_dropWhile, List.rdropWhile_idempotent]

theorem le_foldl_max_init (xs : List Int) (acc : Int) : acc ≤ xs.foldl max acc := by
  induction xs generalizing acc with
  | nil => exact le_refl acc
  | cons x t ih => exact le_trans (le_max_left acc x) (ih (max acc x))

theorem le_foldl_max_mem {xs : List Int} {a : Int} (h : a ∈ xs) (acc : Int) :
    a ≤ xs.foldl max acc := by
  induction xs generalizing acc with
  | nil => cases h
  | cons x t ih =>
    rcases List.mem_cons.mp h with rfl | hmem
    · exact le_trans (le_max_right acc a) (le_foldl_max_init t (max acc a))
    · exact ih hmem (max acc x)

theorem le_pyMax {l : List Int} {a : Int} (h : a ∈ l) (d : Int) : a ≤ pyMax l d := by
  cases l with
  | nil => cases h
  | cons x xs =>
    rcases List.mem_cons.mp h with rfl | hmem
    · exact le_foldl_max_init xs a
    · exact le_foldl_max_mem hmem x

theorem revalidateStr_inv {maxLen : Nat} {s t : String}
    (h : Prof.revalidateStr maxLen s = some t) :
    1 ≤ s.length ∧ s.length ≤ maxLen ∧ t = pyStrip s ∧ 1 ≤ t.length := by
  unfold Prof.revalidateStr at h
  split at h
  · cases h
  · split at h
    · cases h
    · rename_i hlen hz
      cases h
      refine ⟨by omega, by omega, rfl, by omega⟩

theorem revalidateStr_eq {maxLen : Nat} {s : String}
    (h1 : 1 ≤ s.length) (h2 : s.length ≤ maxLen) (h3 : (pyStrip s).length ≠ 0) :
    Prof.revalidateStr maxLen s = some (pyStrip s) := by
  unfold Prof.revalidateStr
  rw [if_neg (by omega), if_neg h3]

theorem revalidateStr_out {maxLen : Nat} {s t : String}
    (h : Prof.revalidateStr maxLen s = some t) :
    Prof.revalidateStr maxLen t = some t := by
  obtain ⟨h1, h2, h3, h4⟩ := revalidateStr_inv h
  have hst : pyStrip t = t := by rw [h3, pyStrip_idem]
  have hle : t.length ≤ maxLen := le_trans (h3 ▸ pyStrip_length_le s) h2
  have := @revalidateStr_eq maxLen t h4 hle (by rw [hst]; omega)
  rw [hst] at this
  exact this

theorem revalidateSong_eq {cy : Int} {s : Prof.Song} {t a : String}
    (ht : Prof.revalidateStr 200 s.titulo = some t)
    (ha : Prof.revalidateStr 100 s.artista = some a)
    (hb : Prof.checkAlbumOk s.album = true)
    (hy : Prof.checkAnioOk cy s.anio = true) :
    Prof.revalidateSong cy s = some { s with titulo := t, artista := a } := by
  unfold Prof.revalidateSong
  rw [ht, ha]
  simp [hb, hy]

theorem revalidateSong_inv {cy : Int} {s s' : Prof.Song}
    (h : Prof.revalidateSong cy s = some s') :
    ∃ t a, Prof.revalidateStr 200 s.titulo = some t ∧
      Prof.revalidateStr 100 s.artista = some a ∧
      Prof.checkAlbumOk s.album = true ∧ Prof.checkAnioOk cy s.anio = true ∧
      s' = { s with titulo := t, artista := a } := by
  unfold Prof.revalidateSong at h
  split at h
  · rename_i t a ht ha
    split at h
    · rename_i hcond
      cases h
      exact ⟨t, a, ht, ha, hcond.1, hcond.2, rfl⟩
    · cases h
  · cases h

theorem revalidateSong_fields {cy : Int} {s s' : Prof.Song}
    (h : Prof.revalidateSong cy s = some s') :
    s'.id = s.id ∧ s'.uuid = s.uuid ∧ s'.album = s.album ∧ s'.anio = s.anio ∧
      s'.created_at = s.created_at ∧ s'.updated_at = s.updated_at := by
  obtain ⟨t, a, _, _, _, _, hs⟩ := revalidateSong_inv h
  subst hs
  exact ⟨rfl, rfl, rfl, rfl, rfl, rfl⟩

theorem revalidateSong_out {cy : Int} {s s' : Prof.Song}
    (h : Prof.revalidateSong cy s = some s') :
    Prof.revalidateSong cy s' = some s' := by
  obtain ⟨t, a, ht, ha, hb, hy, hs⟩ := revalidateSong_inv h
  subst hs
  have := @revalidateSong_eq cy { s with titulo := t, artista := a } t a
    (revalidateStr_out ht) (revalidateStr_out ha) hb hy
  exact this

theorem revalidateSong_self {cy : Int} {s : Prof.Song}
    (h : Prof.revalidateSong cy s = some s) :
    Prof.revalidateStr 200 s.titulo = some s.titulo ∧
      Prof.revalidateStr 100 s.artista = some s.artista ∧
      Prof.checkAlbumOk s.album = true ∧ Prof.checkAnioOk cy s.anio = true := by
  obtain ⟨t, a, ht, ha, hb, hy, hs⟩ := revalidateSong_inv h
  have htit : t = s.titulo := congrArg Prof.Song.titulo hs.symm
  have hart : a = s.artista := congrArg Prof.Song.artista hs.symm
  subst htit
  subst hart
  exact ⟨ht, ha, hb, hy⟩

theorem create_song_ok {cy : Int} {disk : Prof.Document} {sc : Prof.SongCreate}
    {uu : String} {now : Nat} {fsOk : Bool} {disk' : Prof.Document}
    {song : Prof.Song}
    (h : Prof.create_song cy disk sc uu now fsOk = (disk', Except.ok song)) :
    fsOk = true ∧ song.id = pyMax (disk.songs.map (fun s => s.id)) 0 + 1 ∧
      disk'.songs = disk.songs ++ [song] ∧
      Prof.revalidateSong cy song = some song ∧
      disk'.metadata.last_updated = some now ∧
      disk'.metadata.total_records = (disk.songs.length : Int) + 1 := by
  unfold Prof.create_song Prof.write_data at h
  simp only [] at h
  split at h
  · exact absurd h (by simp)
  · rename_i song1 hrv
    split at h
    · rename_i disk2 a heq
      injection h with h1 h2
      injection h2 with h3
      subst h3
      by_cases hfs : fsOk = true
      · rw [if_pos hfs] at heq
        injection heq with hd2 hu
        subst hd2
        subst h1
        refine ⟨hfs, (revalidateSong_fields hrv).1, by simp, revalidateSong_out hrv,
          rfl, by push_cast [List.length_append]; simp⟩
      · rw [if_neg hfs] at heq
        exact absurd heq (by simp)
    · rename_i disk2 e heq
      exact absurd h (by simp)

theorem create_song_fsFail (cy : Int) (disk : Prof.Document) (sc : Prof.SongCreate)
    (uu : String) (now : Nat) :
    Prof.create_song cy disk sc uu now false =
      (disk, Except.error Prof.DBError.databaseWriteError) := by
  unfold Prof.create_song Prof.write_data
  simp only []
  split
  · rfl
  · simp

theorem update_in_list_found {cy : Int} {pre : List Prof.Song} {cur : Prof.Song}
    {post : List Prof.Song} {song_id : Int} {u : Prof.SongUpdate} {now : Nat}
    (hpre : ∀ t ∈ pre, t.id ≠ song_id) (hcur : cur.id = song_id) :
    Prof.update_in_list cy (pre ++ cur :: post) song_id u now =
      match Prof.revalidateSong cy (Prof.mergeUpdate cur u now) with
      | none => Except.error Prof.DBError.databaseWriteError
      | some upd => Except.ok (pre ++ upd :: post, upd) := by
  induction pre with
  | nil =>
    simp only [List.nil_append]
    unfold Prof.update_in_list
    rw [if_pos hcur]
  | cons p ps ih =>
    have hp : p.id ≠ song_id := hpre p (by simp)
    have ihh := ih (fun t ht => hpre t (by simp [ht]))
    simp only [List.cons_append]
    unfold Prof.update_in_list
    rw [if_neg hp, ihh]
    cases Prof.revalidateSong cy (Prof.mergeUpdate cur u now) <;> simp

theorem update_song_found_ok {cy : Int} {disk : Prof.Document} {song_id : Int}
    {u : Prof.SongUpdate} {now : Nat} {fsOk : Bool} {pre : List Prof.Song}
    {cur : Prof.Song} {post : List Prof.Song} {disk' : Prof.Document}
    {upd : Prof.Song}
    (hsongs : disk.songs = pre ++ cur :: post)
    (hpre : ∀ t ∈ pre, t.id ≠ song_id) (hcur : cur.id = song_id)
    (h : Prof.update_song cy disk song_id u now fsOk = (disk', Except.ok upd)) :
    Prof.revalidateSong cy (Prof.mergeUpdate cur u now) = some upd ∧
      fsOk = true ∧ disk'.songs = pre ++ upd :: post ∧
      disk'.metadata.last_updated = some now := by
  unfold Prof.update_song Prof.write_data at h
  rw [hsongs, update_in_list_found hpre hcur] at h
  cases hrv : Prof.revalidateSong cy (Prof.mergeUpdate cur u now) with
  | none =>
    rw [hrv] at h
    exact absurd h (by simp)
  | some upd1 =>
    rw [hrv] at h
    simp only [] at h
    split at h
    · rename_i disk2 a heq
      injection h with h1 h2
      injection h2 with h3
      subst h3
      by_cases hfs : fsOk = true
      · rw [if_pos hfs] at heq
        injection heq with hd2 hu
        subst hd2
        subst h1
        exact ⟨rfl, hfs, by simp, rfl⟩
      · rw [if_neg hfs] at heq
        exact absurd heq (by simp)
    · exact absurd h (by simp)

theorem update_song_fsFail (cy : Int) (disk : Prof.Document) (song_id : Int)
    (u : Prof.SongUpdate) (now : Nat) :
    (Prof.update_song cy disk song_id u now false).1 = disk ∧
      ∀ s : Prof.Song,
        (Prof.update_song cy disk song_id u now false).2 ≠ Except.ok s := by
  unfold Prof.update_song Prof.write_data
  simp only []
  split
  · exact ⟨rfl, fun s => by simp⟩
  · rename_i res songs2 upd heq
    simp

theorem update_in_list_invalid {cy : Int} {songs : List Prof.Song} {song_id : Int}
    {u : Prof.SongUpdate} {now : Nat}
    (hex : ∃ s ∈ songs, s.id = song_id)
    (hbad : ∀ s : Prof.Song, Prof.revalidateSong cy (Prof.mergeUpdate s u now) = none) :
    Prof.update_in_list cy songs song_id u now =
      Except.error Prof.DBError.databaseWriteError := by
  induction songs with
  | nil =>
    rcases hex with ⟨s, hs, _⟩
    cases hs
  | cons a rest ih =>
    unfold Prof.update_in_list
    by_cases ha : a.id = song_id
    · rw [if_pos ha, hbad a]
    · rw [if_neg ha]
      have hex' : ∃ s ∈ rest, s.id = song_id := by
        rcases hex with ⟨s, hs, hid⟩
        rcases List.mem_cons.mp hs with rfl | hm
        · exact absurd hid ha
        · exact ⟨s, hm, hid⟩
      rw [ih hex']

theorem revalidateSong_none_of_empty_titulo {cy : Int} {s : Prof.Song}
    (h : s.titulo.length = 0) : Prof.revalidateSong cy s = none := by
  unfold Prof.revalidateSong Prof.revalidateStr
  rw [if_pos (Or.inl (by omega))]

theorem update_song_invalid {cy : Int} {disk : Prof.Document} {song_id : Int}
    {u : Prof.SongUpdate} {now : Nat} (fsOk : Bool)
    (hex : ∃ s ∈ disk.songs, s.id = song_id)
    (hbad : ∀ s : Prof.Song, Prof.revalidateSong cy (Prof.mergeUpdate s u now) = none) :
    Prof.update_song cy disk song_id u now fsOk =
      (disk, Except.error Prof.DBError.databaseWriteError) := by
  unfold Prof.update_song
  rw [update_in_list_invalid hex hbad]

theorem delete_song_nomatch {disk : Prof.Document} {song_id : Int}
    (h : ∀ s ∈ disk.songs, s.id ≠ song_id) (now : Nat) (fsOk : Bool) :
    Prof.delete_song disk song_id now fsOk = (disk, Except.ok false) := by
  unfold Prof.delete_song
  have hfe : disk.songs.filter (fun s => s.id ≠ song_id) = disk.songs :=
    List.filter_eq_self.mpr (fun a ha => by simpa using h a ha)
  simp only []
  rw [hfe, if_pos rfl]

theorem delete_song_match {disk : Prof.Document} {song_id : Int}
    (h : ∃ s ∈ disk.songs, s.id = song_id) (now : Nat) :
    Prof.delete_song disk song_id now true =
      ({ songs := disk.songs.filter (fun s => s.id ≠ song_id),
         metadata :=
           { disk.metadata with
             last_updated := some now,
             total_records :=
               ((disk.songs.filter (fun s => s.id ≠ song_id)).length : Int) } },
        Except.ok true) ∧
      Prof.delete_song disk song_id now false =
        (disk, Except.error Prof.DBError.databaseWriteError) := by
  have hlt : (disk.songs.filter (fun s => s.id ≠ song_id)).length <
      disk.songs.length := by
    apply List.length_filter_lt_length_iff_exists.mpr
    rcases h with ⟨s, hs, hid⟩
    exact ⟨s, hs, by simp [hid]⟩
  constructor
  · unfold Prof.delete_song Prof.write_data
    simp only []
    rw [if_neg (by omega)]
    simp
  · unfold Prof.delete_song Prof.write_data
    simp only []
    rw [if_neg (by omega)]
    simp

theorem mem_filter_ne {songs : List Prof.Song} {song_id : Int} {t : Prof.Song}
    (ht : t ∈ songs.filter (fun s => s.id ≠ song_id)) : t.id ≠ song_id := by
  have := List.of_mem_filter ht
  simpa using this

theorem find?_first {pre : List Prof.Song} {cur : Prof.Song}
    {post : List Prof.Song} {song_id : Int}
    (hpre : ∀ t ∈ pre, t.id ≠ song_id) (hcur : cur.id = song_id) :
    (pre ++ cur :: post).find? (fun s => s.id = song_id) = some cur := by
  induction pre with
  | nil =>
    simp only [List.nil_append]
    exact List.find?_cons_of_pos post (by simp [hcur])
  | cons p ps ih =>
    have hp : p.id ≠ song_id := hpre p (by simp)
    simp only [List.cons_append]
    rw [List.find?_cons_of_neg _ (by simp [hp])]
    exact ih (fun t ht => hpre t (by simp [ht]))

theorem filterMap_id_of {α : Type} {f : α → Option α} {l : List α}
    (h : ∀ a ∈ l, f a = some a) : l.filterMap f = l := by
  induction l with
  | nil => rfl
  | cons a t ih =>
    rw [List.filterMap_cons, h a (by simp)]
    rw [ih (fun b hb => h b (by simp [hb]))]

theorem get_all_songs_of_storeOk {cy : Int} {d : Prof.Document}
    (h : Prof.StoreOk cy d) : Prof.get_all_songs cy d = d.songs :=
  filterMap_id_of h

theorem jget_jset_self (o : Mini.JObj) (k : String) (v : Mini.JVal) :
    Mini.jget (Mini.jset o k v) k = some v := by
  induction o with
  | nil => simp [Mini.jset, Mini.jget]
  | cons kv rest ih =>
    by_cases hk : kv.1 = k
    · simp [Mini.jset, Mini.jget, hk]
    · simp only [Mini.jset, Mini.jget, hk, if_neg hk]
      simpa [Mini.jget, hk] using ih

theorem jget_jset_ne (o : Mini.JObj) {k k' : String} (v : Mini.JVal)
    (h : k' ≠ k) : Mini.jget (Mini.jset o k' v) k = Mini.jget o k := by
  induction o with
  | nil => simp [Mini.jset, Mini.jget, h]
  | cons kv rest ih =>
    by_cases hk : kv.1 = k'
    · simp [Mini.jset, Mini.jget, hk, h]
    · simp only [Mini.jset, if_neg hk]
      by_cases hk2 : kv.1 = k
      · simp [Mini.jget, hk2]
      · simp [Mini.jget, hk2, ih]

theorem jget_jupdate_none (o : Mini.JObj) {upd : Mini.JObj} {k : String}
    (h : Mini.jget upd k = none) :
    Mini.jget (Mini.jupdate o upd) k = Mini.jget o k := by
  induction upd generalizing o with
  | nil => rfl
  | cons kv rest ih =>
    have hk : kv.1 ≠ k := by
      intro he
      simp [Mini.jget, he] at h
    have hrest : Mini.jget rest k = none := by
      simpa [Mini.jget, hk] using h
    show Mini.jget (Mini.jupdate (Mini.jset o kv.1 kv.2) rest) k = _
    rw [ih (Mini.jset o kv.1 kv.2) hrest, jget_jset_ne o kv.2 hk]

/-- Keys of a Python dict are unique; the bodies the app builds all satisfy
this. -/
abbrev UniqKeys (o : Mini.JObj) : Prop :=
  o.Pairwise (fun a b => a.1 ≠ b.1)

theorem jget_eq_none_of_forall {upd : Mini.JObj} {k : String}
    (h : ∀ kv ∈ upd, kv.1 ≠ k) : Mini.jget upd k = none := by
  induction upd with
  | nil => rfl
  | cons kv rest ih =>
    have hk : kv.1 ≠ k := h kv (by simp)
    simp only [Mini.jget, if_neg hk]
    exact ih (fun kv2 hm => h kv2 (by simp [hm]))

theorem jget_jupdate_some (o : Mini.JObj) {upd : Mini.JObj} {k : String}
    {v : Mini.JVal} (hu : UniqKeys upd) (h : Mini.jget upd k = some v) :
    Mini.jget (Mini.jupdate o upd) k = some v := by
  induction upd generalizing o with
  | nil => cases h
  | cons kv rest ih =>
    have hu' : UniqKeys rest := (List.pairwise_cons.mp hu).2
    by_cases hk : kv.1 = k
    · have hv : kv.2 = v := by
        simpa [Mini.jget, hk] using h
      have hnone : Mini.jget rest k = none := by
        apply jget_eq_none_of_forall
        intro kv2 hm
        exact fun he => ((List.pairwise_cons.mp hu).1 kv2 hm) (hk ▸ he.symm)
      show Mini.jget (Mini.jupdate (Mini.jset o kv.1 kv.2) rest) k = some v
      rw [jget_jupdate_none _ hnone, hk, hv, jget_jset_self]
    · have hrest : Mini.jget rest k = some v := by
        simpa [Mini.jget, hk] using h
      show Mini.jget (Mini.jupdate (Mini.jset o kv.1 kv.2) rest) k = some v
      exact ih (Mini.jset o kv.1 kv.2) hu' hrest

theorem mini_add_song_ok {disk : Mini.MDoc} {body : Mini.JObj} (fsOk : Bool)
    (hne : body ≠ [])
    (ht : Mini.jget body Mini.kTitulo ≠ none)
    (ha : Mini.jget body Mini.kArtista ≠ none) :
    Mini.add_song disk body fsOk =
      (Mini.write_data disk
        { disk with songs := disk.songs ++
            [Mini.jupdate
              [(Mini.kId, Mini.JVal.jInt (pyMax (Mini.intIds disk.songs) 0 + 1))]
              body] }
        fsOk,
       201,
       some (Mini.jupdate
         [(Mini.kId, Mini.JVal.jInt (pyMax (Mini.intIds disk.songs) 0 + 1))]
         body)) := by
  unfold Mini.add_song
  rw [if_neg (by simp [List.isEmpty_iff, hne])]
  rw [if_neg (by simp [Option.isNone_iff_eq_none, ht, ha])]
  cases hids : Mini.intIds disk.songs with
  | nil => simp [hids, pyMax]
  | cons x xs => simp [hids, pyMax]

theorem mini_delete_nomatch {disk : Mini.MDoc} {song_id : Int}
    (h : ∀ s ∈ disk.songs,
      Mini.jget s Mini.kId ≠ some (Mini.JVal.jInt song_id)) (fsOk : Bool) :
    Mini.delete_song disk song_id fsOk = (disk, 404) := by
  unfold Mini.delete_song
  rw [if_neg]
  simp only [List.any_eq_true, not_exists]
  intro s
  simp only [not_and]
  intro hs
  simpa using h s hs

theorem mini_delete_match {disk : Mini.MDoc} {song_id : Int}
    (h : ∃ s ∈ disk.songs,
      Mini.jget s Mini.kId = some (Mini.JVal.jInt song_id)) :
    Mini.delete_song disk song_id true =
      ({ disk with
         songs := disk.songs.filter
                    (fun s => Mini.jget s Mini.kId ≠ some (Mini.JVal.jInt song_id)) },
        200) := by
  unfold Mini.delete_song Mini.write_data
  rw [if_pos]
  · simp
  · simp only [List.any_eq_true]
    rcases h with ⟨s, hs, hid⟩
    exact ⟨s, hs, by simp [hid]⟩

theorem mini_mem_filter_ne {songs : List Mini.JObj} {song_id : Int}
    {t : Mini.JObj}
    (ht : t ∈ songs.filter
      (fun s => Mini.jget s Mini.kId ≠ some (Mini.JVal.jInt song_id))) :
    Mini.jget t Mini.kId ≠ some (Mini.JVal.jInt song_id) := by
  have := List.of_mem_filter ht
  simpa using this

/-- C6, counterexample: the minimal variant's `write_data` persists the
caller's document verbatim. A successful write of a document with zero songs
and caller-supplied `metadata.total_records = 999` leaves 999 on disk (≠ 0)
and stamps no `last_updated`, contradicting the claim that after every
successful write `total_records = len(songs)` and `last_updated` is stamped. -/
theorem c6_counterexample :
    Mini.write_data W.m0 W.m6 true = W.m6 ∧
      W.m6.songs.length = 0 ∧
      W.m6.metadata.map (fun m => Mini.jget m Mini.kTotalRecords) =
        some (some (Mini.JVal.jInt 999)) ∧
      (999 : Int) ≠ 0 ∧
      W.m6.metadata.map (fun m => Mini.jget m Mini.kLastUpdated) = some none :=
  ⟨rfl, rfl, by decide, by decide, by decide⟩

/-- C6, amended: after every successful write through the professional
variant's `_write_data`, the persisted document's metadata satisfies
`total_records = len(songs)` and `last_updated = now`, whatever metadata the
caller supplied; the minimal variant's `write_data` instead persists the
caller's document exactly as given, stamping nothing. -/
theorem c6_write_stamps_metadata (disk data : Prof.Document) (now : Nat)
    (mdisk mdata : Mini.MDoc) :
    (Prof.write_data disk data now true).2 = Except.ok () ∧
      (Prof.write_data disk data now true).1.metadata.total_records =
        (data.songs.length : Int) ∧
      (Prof.write_data disk data now true).1.metadata.last_updated = some now ∧
      (Prof.write_data disk data now true).1.songs = data.songs ∧
      Mini.write_data mdisk mdata true = mdata :=
  ⟨rfl, rfl, rfl, rfl, rfl⟩

/-- C2, counterexample: in the minimal variant a failed write is swallowed —
`add_song` on the empty store with a valid body and a failing filesystem still
answers 201 with a created record, while the on-disk document is unchanged
(still zero songs), contradicting the claim that a write that cannot be
committed surfaces a `StoreWriteError` and never reports success. -/
theorem c2_counterexample :
    (Mini.add_song W.m0 W.mbody false).2.1 = 201 ∧
      (Mini.add_song W.m0 W.mbody false).2.2.isSome = true ∧
      (Mini.add_song W.m0 W.mbody false).1 = W.m0 ∧
      W.m0.songs.length = 0 :=
  ⟨by decide, by decide, by decide, rfl⟩

/-- C2, amended: in the professional variant every mutation whose write fails
surfaces `DatabaseWriteError` and leaves the on-disk document untouched
(create and a matched delete return exactly `(disk, error)`; update never
returns `ok` and keeps the disk); in the minimal variant `write_data` swallows
the failure, so `add_song` still answers 201 while the disk is unchanged. -/
theorem c2_write_failure_surfacing (cy : Int) (disk : Prof.Document)
    (sc : Prof.SongCreate) (uu : String) (now : Nat) (song_id : Int)
    (u : Prof.SongUpdate) (mdisk : Mini.MDoc) (body : Mini.JObj)
    (hne : body ≠ []) (ht : Mini.jget body Mini.kTitulo ≠ none)
    (ha : Mini.jget body Mini.kArtista ≠ none)
    (hdel : ∃ s ∈ disk.songs, s.id = song_id) :
    Prof.create_song cy disk sc uu now false =
        (disk, Except.error Prof.DBError.databaseWriteError) ∧
      (Prof.update_song cy disk song_id u now false).1 = disk ∧
      (∀ s : Prof.Song,
        (Prof.update_song cy disk song_id u now false).2 ≠ Except.ok s) ∧
      Prof.delete_song disk song_id now false =
        (disk, Except.error Prof.DBError.databaseWriteError) ∧
      (Mini.add_song mdisk body false).2.1 = 201 ∧
      (Mini.add_song mdisk body false).1 = mdisk := by
  refine ⟨create_song_fsFail cy disk sc uu now,
    (update_song_fsFail cy disk song_id u now).1,
    (update_song_fsFail cy disk song_id u now).2,
    (delete_song_match hdel now).2, ?_, ?_⟩
  · rw [mini_add_song_ok false hne ht ha]
  · rw [mini_add_song_ok false hne ht ha]
    rfl

/-- C2, witness: the amended theorem applied at a one-record professional
store and the empty minimal store. -/
theorem c2_witness :
    (W.mbody ≠ [] ∧ Mini.jget W.mbody Mini.kTitulo ≠ none ∧
      Mini.jget W.mbody Mini.kArtista ≠ none ∧ (∃ s ∈ W.d1.songs, s.id = 1)) ∧
      (Prof.create_song 2026 W.d1 W.sc0 "u" 7 false =
          (W.d1, Except.error Prof.DBError.databaseWriteError) ∧
        (Prof.update_song 2026 W.d1 1 W.upAlbum 7 false).1 = W.d1 ∧
        (∀ s : Prof.Song,
          (Prof.update_song 2026 W.d1 1 W.upAlbum 7 false).2 ≠ Except.ok s) ∧
        Prof.delete_song W.d1 1 7 false =
          (W.d1, Except.error Prof.DBError.databaseWriteError) ∧
        (Mini.add_song W.m0 W.mbody false).2.1 = 201 ∧
        (Mini.add_song W.m0 W.mbody false).1 = W.m0) :=
  ⟨⟨by decide, by decide, by decide, by decide⟩,
    c2_write_failure_surfacing 2026 W.d1 W.sc0 "u" 7 1 W.upAlbum W.m0 W.mbody
      (by decide) (by decide) (by decide) (by decide)⟩

/-- C1: a successful professional create assigns
`id = max(existing ids, default 0) + 1` (so 1 on an empty store); the listing
afterwards contains exactly one more record than before; and an id strictly
below some surviving record's id is never the assigned id, so deleted ids are
not reused while a record with a higher id remains. The minimal variant's id
generation obeys the same formula whenever the body does not smuggle in an
`id` key of its own, and its successful create also grows the store by one. -/
theorem c1_create_assigns_max_plus_one (cy : Int) (disk : Prof.Document)
    (sc : Prof.SongCreate) (uu : String) (now : Nat) (fsOk : Bool)
    (disk' : Prof.Document) (song : Prof.Song)
    (hok : Prof.create_song cy disk sc uu now fsOk = (disk', Except.ok song))
    (hstore : Prof.StoreOk cy disk)
    (mdisk : Mini.MDoc) (body : Mini.JObj)
    (hne : body ≠ []) (hbt : Mini.jget body Mini.kTitulo ≠ none)
    (hba : Mini.jget body Mini.kArtista ≠ none)
    (hbid : Mini.jget body Mini.kId = none) :
    song.id = pyMax (disk.songs.map (fun s => s.id)) 0 + 1 ∧
      (Prof.get_all_songs cy disk').length =
        (Prof.get_all_songs cy disk).length + 1 ∧
      (∀ d : Int, (∃ s ∈ disk.songs, d < s.id) → d ≠ song.id) ∧
      (∀ rec, (Mini.add_song mdisk body true).2.2 = some rec →
        Mini.jget rec Mini.kId =
          some (Mini.JVal.jInt (pyMax (Mini.intIds mdisk.songs) 0 + 1))) ∧
      (Mini.add_song mdisk body true).1.songs.length = mdisk.songs.length + 1 := by
  obtain ⟨hfs, hid, hsongs, hrv, _, _⟩ := create_song_ok hok
  have hlist : Prof.get_all_songs cy disk = disk.songs :=
    get_all_songs_of_storeOk hstore
  have hlist' : Prof.get_all_songs cy disk' = disk.songs ++ [song] := by
    unfold Prof.get_all_songs
    rw [hsongs]
    exact filterMap_id_of (fun a ha => by
      rcases List.mem_append.mp ha with hm | hm
      · exact hstore a hm
      · rcases List.mem_singleton.mp hm with rfl
        exact hrv)
  refine ⟨hid, ?_, ?_, ?_, ?_⟩
  · rw [hlist, hlist']
    simp
  · intro d hd hne2
    rcases hd with ⟨s, hs, hlt⟩
    have hsle : s.id ≤ pyMax (disk.songs.map (fun s => s.id)) 0 :=
      le_pyMax (List.mem_map_of_mem _ hs) 0
    omega
  · intro rec hrec
    rw [mini_add_song_ok true hne hbt hba] at hrec
    injection hrec with h1
    rw [← h1, jget_jupdate_none _ hbid]
    simp [Mini.jget]
  · rw [mini_add_song_ok true hne hbt hba]
    simp [Mini.write_data]

/-- C1, witness: the theorem applied at the empty professional store (the
created record gets id 1) and the empty minimal store. -/
theorem c1_witness :
    (Prof.create_song 2026 W.d0 W.sc0 "u1" 5 true = (W.d0', Except.ok W.s1) ∧
      Prof.StoreOk 2026 W.d0 ∧ W.mbody ≠ [] ∧
      Mini.jget W.mbody Mini.kTitulo ≠ none ∧
      Mini.jget W.mbody Mini.kArtista ≠ none ∧
      Mini.jget W.mbody Mini.kId = none) ∧
      (W.s1.id = pyMax (W.d0.songs.map (fun s => s.id)) 0 + 1 ∧
        (Prof.get_all_songs 2026 W.d0').length =
          (Prof.get_all_songs 2026 W.d0).length + 1 ∧
        (∀ d : Int, (∃ s ∈ W.d0.songs, d < s.id) → d ≠ W.s1.id) ∧
        (∀ rec, (Mini.add_song W.m0 W.mbody true).2.2 = some rec →
          Mini.jget rec Mini.kId =
            some (Mini.JVal.jInt (pyMax (Mini.intIds W.m0.songs) 0 + 1))) ∧
        (Mini.add_song W.m0 W.mbody true).1.songs.length =
          W.m0.songs.length + 1) :=
  ⟨⟨rfl, by decide, by decide, by decide, by decide, by decide⟩,
    c1_create_assigns_max_plus_one 2026 W.d0 W.sc0 "u1" 5 true W.d0' W.s1
      rfl (by decide) W.m0 W.mbody (by decide) (by decide) (by decide)
      (by decide)⟩

/-- C3, counterexample: in the minimal variant an update body supplying
`created_at` mutates the stored record — updating the record
`{id: 1, created_at: "2020"}` with body `{created_at: "HACK"}` succeeds and
stores `created_at = "HACK"`, contradicting the claim that supplying
`created_at` in an update payload is ignored and never mutated. -/
theorem c3_counterexample :
    (Mini.update_song W.mdoc1 1 W.mbodyCA true).2.1 = 200 ∧
      (Mini.update_song W.mdoc1 1 W.mbodyCA true).2.2.map
          (fun r => Mini.jget r Mini.kCreatedAt) =
        some (some (Mini.JVal.jStr "HACK")) ∧
      Mini.jget W.msong Mini.kCreatedAt = some (Mini.JVal.jStr "2020") ∧
      Mini.JVal.jStr "HACK" ≠ Mini.JVal.jStr "2020" :=
  ⟨by decide, by decide, by decide, by decide⟩

/-- C3, amended: in the professional variant a successful update of the first
record matching the id changes only the supplied fields plus `updated_at`;
`id`, `uuid`, `created_at` and every unsupplied field keep their stored values
(for a stored record that re-parses to itself, as all store-written records
do), and the `id`/`uuid`/`created_at` keys of a raw update body are dropped by
`SongUpdate` parsing. In the minimal variant only the `id` key is stripped
from the body; any other supplied key — `uuid` and `created_at` included —
overwrites the stored value. -/
theorem c3_partial_update_frame (cy : Int) (disk : Prof.Document)
    (song_id : Int) (u : Prof.SongUpdate) (now : Nat) (fsOk : Bool)
    (pre : List Prof.Song) (cur : Prof.Song) (post : List Prof.Song)
    (disk' : Prof.Document) (upd : Prof.Song)
    (hsongs : disk.songs = pre ++ cur :: post)
    (hpre : ∀ t ∈ pre, t.id ≠ song_id) (hcur : cur.id = song_id)
    (hstable : Prof.revalidateSong cy cur = some cur)
    (hok : Prof.update_song cy disk song_id u now fsOk = (disk', Except.ok upd)) :
    upd.id = cur.id ∧ upd.uuid = cur.uuid ∧ upd.created_at = cur.created_at ∧
      upd.updated_at = now ∧
      (u.titulo = none → upd.titulo = cur.titulo) ∧
      (u.artista = none → upd.artista = cur.artista) ∧
      (u.album = none → upd.album = cur.album) ∧
      (u.anio = none → upd.anio = cur.anio) ∧
      disk'.songs = pre ++ upd :: post ∧
      (∀ (p : Prof.RawUpdate) (i : Option Int) (u2 : Option String)
          (c : Option Nat),
        Prof.validate_update cy ⟨p.titulo, p.artista, p.album, p.anio, i, u2, c⟩ =
          Prof.validate_update cy p) := by
  obtain ⟨hrv, hfs, hsongs', hmeta⟩ := update_song_found_ok hsongs hpre hcur hok
  obtain ⟨t, a, hts, has, hb, hy, hupd⟩ := revalidateSong_inv hrv
  subst hupd
  refine ⟨rfl, rfl, rfl, rfl, ?_, ?_, ?_, ?_, hsongs', ?_⟩
  · intro h0
    have hmt : (Prof.mergeUpdate cur u now).titulo = cur.titulo := by
      simp [Prof.mergeUpdate, h0]
    rw [hmt] at hts
    have hself := (revalidateSong_self hstable).1
    rw [hself] at hts
    injection hts with h1
    exact h1.symm
  · intro h0
    have hma : (Prof.mergeUpdate cur u now).artista = cur.artista := by
      simp [Prof.mergeUpdate, h0]
    rw [hma] at has
    have hself := (revalidateSong_self hstable).2.1
    rw [hself] at has
    injection has with h1
    exact h1.symm
  · intro h0
    show (Prof.mergeUpdate cur u now).album = cur.album
    simp [Prof.mergeUpdate, h0]
  · intro h0
    show (Prof.mergeUpdate cur u now).anio = cur.anio
    simp [Prof.mergeUpdate, h0]
  · intro p i u2 c
    cases p
    rfl

/-- C3, witness: updating only `album` on a one-record store changes `album`
and `updated_at` and nothing else. -/
theorem c3_witness :
    (W.d1.songs = [] ++ W.songA :: [] ∧
      (∀ t ∈ ([] : List Prof.Song), t.id ≠ 1) ∧ W.songA.id = 1 ∧
      Prof.revalidateSong 2026 W.songA = some W.songA ∧
      Prof.update_song 2026 W.d1 1 W.upAlbum 9 true =
        (⟨[⟨1, "ua", "ta", "aa", some "X", none, 0, 9⟩], ⟨"1.0.0", 0, some 9, 1⟩⟩,
          Except.ok ⟨1, "ua", "ta", "aa", some "X", none, 0, 9⟩)) ∧
      ((⟨1, "ua", "ta", "aa", some "X", none, 0, 9⟩ : Prof.Song).id = W.songA.id ∧
        (⟨1, "ua", "ta", "aa", some "X", none, 0, 9⟩ : Prof.Song).uuid = W.songA.uuid ∧
        (⟨1, "ua", "ta", "aa", some "X", none, 0, 9⟩ : Prof.Song).created_at =
          W.songA.created_at ∧
        (⟨1, "ua", "ta", "aa", some "X", none, 0, 9⟩ : Prof.Song).updated_at = 9 ∧
        (W.upAlbum.titulo = none →
          (⟨1, "ua", "ta", "aa", some "X", none, 0, 9⟩ : Prof.Song).titulo =
            W.songA.titulo) ∧
        (W.upAlbum.artista = none →
          (⟨1, "ua", "ta", "aa", some "X", none, 0, 9⟩ : Prof.Song).artista =
            W.songA.artista) ∧
        (W.upAlbum.album = none →
          (⟨1, "ua", "ta", "aa", some "X", none, 0, 9⟩ : Prof.Song).album =
            W.songA.album) ∧
        (W.upAlbum.anio = none →
          (⟨1, "ua", "ta", "aa", some "X", none, 0, 9⟩ : Prof.Song).anio =
            W.songA.anio) ∧
        (⟨[⟨1, "ua", "ta", "aa", some "X", none, 0, 9⟩], ⟨"1.0.0", 0, some 9, 1⟩⟩ :
            Prof.Document).songs =
          [] ++ (⟨1, "ua", "ta", "aa", some "X", none, 0, 9⟩ : Prof.Song) :: [] ∧
        (∀ (p : Prof.RawUpdate) (i : Option Int) (u2 : Option String)
            (c : Option Nat),
          Prof.validate_update 2026
              ⟨p.titulo, p.artista, p.album, p.anio, i, u2, c⟩ =
            Prof.validate_update 2026 p)) :=
  ⟨⟨rfl, by decide, by decide, by decide, rfl⟩,
    c3_partial_update_frame 2026 W.d1 1 W.upAlbum 9 true [] W.songA []
      _ _ rfl (by decide) (by decide) (by decide) rfl⟩

/-- C4, counterexample: in the minimal variant a client-supplied `id` in the
create body becomes the record's id — creating on the empty store (where the
store would assign id 1) with a body containing `id: 999` stores and returns
a record whose id is 999, contradicting the claim that a client-supplied
`id` never becomes the record's id. -/
theorem c4_counterexample :
    (Mini.add_song W.m0 W.mbody4 true).2.2.map
        (fun r => Mini.jget r Mini.kId) =
      some (some (Mini.JVal.jInt 999)) ∧
      pyMax (Mini.intIds W.m0.songs) 0 + 1 = 1 ∧
      (999 : Int) ≠ 1 :=
  ⟨by decide, by decide, by decide⟩

/-- C4, amended: in the professional variant the created record's id is always
the store-assigned `max(existing ids, default 0) + 1`, and the raw body's
`id`/`uuid`/`created_at` keys never even reach `create_song` because
`SongCreate` parsing drops them; in the minimal variant a client-supplied
integer `id` key overwrites the assigned id in the stored and returned record
(for a body with unique keys, as Python dicts are). -/
theorem c4_store_assigned_id (cy : Int) (disk : Prof.Document)
    (p : Prof.RawCreate) (uu : String) (now : Nat) (fsOk : Bool)
    (i : Option Int) (u2 : Option String) (c : Option Nat)
    (disk' : Prof.Document) (song : Prof.Song)
    (mdisk : Mini.MDoc) (body : Mini.JObj) (k : Int)
    (hok : Prof.create_endpoint cy disk p uu now fsOk = (disk', Except.ok song))
    (hu : UniqKeys body)
    (hkid : Mini.jget body Mini.kId = some (Mini.JVal.jInt k))
    (hne : body ≠ []) (hbt : Mini.jget body Mini.kTitulo ≠ none)
    (hba : Mini.jget body Mini.kArtista ≠ none) :
    song.id = pyMax (disk.songs.map (fun s => s.id)) 0 + 1 ∧
      Prof.create_endpoint cy disk ⟨p.titulo, p.artista, p.album, p.anio, i, u2, c⟩
          uu now fsOk =
        Prof.create_endpoint cy disk p uu now fsOk ∧
      (∀ rec, (Mini.add_song mdisk body true).2.2 = some rec →
        Mini.jget rec Mini.kId = some (Mini.JVal.jInt k)) := by
  refine ⟨?_, ?_, ?_⟩
  · unfold Prof.create_endpoint at hok
    split at hok
    · exact absurd hok (by simp)
    · rename_i sc hval
      split at hok
      · rename_i res d2 s heq
        injection hok with h1 h2
        injection h2 with h3
        subst h3
        subst h1
        exact (create_song_ok heq).2.1
      · exact absurd hok (by simp)
  · cases p
    rfl
  · intro rec hrec
    rw [mini_add_song_ok true hne hbt hba] at hrec
    injection hrec with h1
    rw [← h1]
    exact jget_jupdate_some _ hu hkid

/-- C4, witness: a create body that smuggles in `id := 999` still yields id 1
on the empty professional store, while the minimal variant stores id 999. -/
theorem c4_witness :
    (Prof.create_endpoint 2026 W.d0
        ⟨some "t", some "a", none, none, some 999, none, none⟩ "u1" 5 true =
        (W.d0', Except.ok W.s1) ∧
      UniqKeys W.mbody4 ∧
      Mini.jget W.mbody4 Mini.kId = some (Mini.JVal.jInt 999) ∧
      W.mbody4 ≠ [] ∧ Mini.jget W.mbody4 Mini.kTitulo ≠ none ∧
      Mini.jget W.mbody4 Mini.kArtista ≠ none) ∧
      (W.s1.id = pyMax (W.d0.songs.map (fun s => s.id)) 0 + 1 ∧
        Prof.create_endpoint 2026 W.d0
            ⟨(⟨some "t", some "a", none, none, some 999, none, none⟩ :
                Prof.RawCreate).titulo,
              (⟨some "t", some "a", none, none, some 999, none, none⟩ :
                Prof.RawCreate).artista,
              (⟨some "t", some "a", none, none, some 999, none, none⟩ :
                Prof.RawCreate).album,
              (⟨some "t", some "a", none, none, some 999, none, none⟩ :
                Prof.RawCreate).anio, some 5, some "z", some 3⟩ "u1" 5 true =
          Prof.create_endpoint 2026 W.d0
            ⟨some "t", some "a", none, none, some 999, none, none⟩ "u1" 5 true ∧
        (∀ rec, (Mini.add_song W.m0 W.mbody4 true).2.2 = some rec →
          Mini.jget rec Mini.kId = some (Mini.JVal.jInt 999))) :=
  ⟨⟨rfl, by decide, by decide, by decide, by decide, by decide⟩,
    c4_store_assigned_id 2026 W.d0
      ⟨some "t", some "a", none, none, some 999, none, none⟩ "u1" 5 true
      (some 5) (some "z") (some 3) W.d0' W.s1 W.m0 W.mbody4 999 rfl
      (by decide) (by decide) (by decide) (by decide) (by decide)⟩

/-- C5: delete is idempotent in both variants. When no record matches, the
professional `delete_song` answers `ok false` and leaves the document exactly
as it was, without performing a write, whatever the filesystem state; when a
record matches, deleting with a working filesystem answers `ok true`, and a
second delete of the same id answers `ok false` on the then-current document
for every filesystem state — in particular the second call never surfaces a
write failure. The minimal variant behaves alike with statuses 200 then 404. -/
theorem c5_delete_idempotent (disk : Prof.Document) (song_id : Int)
    (now now' : Nat) (fsOk' : Bool) (mdisk : Mini.MDoc) (mid : Int)
    (hmem : ∃ s ∈ disk.songs, s.id = song_id)
    (hmmem : ∃ s ∈ mdisk.songs,
      Mini.jget s Mini.kId = some (Mini.JVal.jInt mid)) :
    (∀ (disk0 : Prof.Document) (fsOk0 : Bool),
      (∀ s ∈ disk0.songs, s.id ≠ song_id) →
        Prof.delete_song disk0 song_id now fsOk0 = (disk0, Except.ok false)) ∧
      (∃ d2 : Prof.Document,
        Prof.delete_song disk song_id now true = (d2, Except.ok true) ∧
          Prof.delete_song d2 song_id now' fsOk' = (d2, Except.ok false)) ∧
      (∀ (m2 : Mini.MDoc) (fs0 : Bool),
        (∀ s ∈ m2.songs, Mini.jget s Mini.kId ≠ some (Mini.JVal.jInt mid)) →
          Mini.delete_song m2 mid fs0 = (m2, 404)) ∧
      (∃ m2 : Mini.MDoc, Mini.delete_song mdisk mid true = (m2, 200) ∧
        ∀ fs2 : Bool, Mini.delete_song m2 mid fs2 = (m2, 404)) := by
  refine ⟨fun disk0 fsOk0 h => delete_song_nomatch h now fsOk0, ?_,
    fun m2 fs0 h => mini_delete_nomatch h fs0, ?_⟩
  · refine ⟨_, (delete_song_match hmem now).1, ?_⟩
    apply delete_song_nomatch
    intro s hs
    exact mem_filter_ne hs
  · refine ⟨_, mini_delete_match hmmem, ?_⟩
    intro fs2
    apply mini_delete_nomatch
    intro s hs
    exact mini_mem_filter_ne hs

/-- C5, witness: deleting id 1 twice on a one-record professional store and
id 7 twice on a two-record minimal store. -/
theorem c5_witness :
    ((∃ s ∈ W.d1.songs, s.id = 1) ∧
      (∃ s ∈ W.mdup.songs,
        Mini.jget s Mini.kId = some (Mini.JVal.jInt 7))) ∧
      ((∀ (disk0 : Prof.Document) (fsOk0 : Bool),
        (∀ s ∈ disk0.songs, s.id ≠ 1) →
          Prof.delete_song disk0 1 11 fsOk0 = (disk0, Except.ok false)) ∧
        (∃ d2 : Prof.Document,
          Prof.delete_song W.d1 1 11 true = (d2, Except.ok true) ∧
            Prof.delete_song d2 1 12 false = (d2, Except.ok false)) ∧
        (∀ (m2 : Mini.MDoc) (fs0 : Bool),
          (∀ s ∈ m2.songs, Mini.jget s Mini.kId ≠ some (Mini.JVal.jInt 7)) →
            Mini.delete_song m2 7 fs0 = (m2, 404)) ∧
        (∃ m2 : Mini.MDoc, Mini.delete_song W.mdup 7 true = (m2, 200) ∧
          ∀ fs2 : Bool, Mini.delete_song m2 7 fs2 = (m2, 404))) :=
  ⟨⟨by decide, by decide⟩,
    c5_delete_idempotent W.d1 1 11 12 false W.mdup 7 (by decide) (by decide)⟩

/-- C7, counterexample: `SongUpdate` has no `no_empty_after_strip` validator
and its `min_length=1` is checked on the raw value, so the update payload
`{titulo: "  "}` (raw length 2, empty after trimming) passes
`validate_update`, normalized to the empty string, instead of failing with a
`ValidationError` as the claim requires for a title empty after trimming. -/
theorem c7_counterexample :
    Prof.validate_update 2026 W.ruWS = Except.ok W.suWS ∧
      W.ruWS.titulo = some "  " ∧ ("  " : String).length = 2 ∧
      (pyStrip "  ").length = 0 :=
  ⟨rfl, rfl, by decide, by decide⟩

/-- C7, amended: `validate_update` fails with a `ValidationError` when zero
recognized fields are present, and when a supplied field violates its declared
raw-value constraints (raw length bounds on `titulo`, year bounds on `año`);
but a title that is nonempty raw and empty after trimming passes
`validate_update`, normalized to the empty string, and the violation then
surfaces from `update_song`'s whole-record re-validation as a
`DatabaseWriteError` rather than any validation error. -/
theorem c7_update_validation (cy : Int) (s : String)
    (i : Option Int) (u2 : Option String) (c : Option Nat) (y : Int)
    (disk : Prof.Document) (song_id : Int) (u : Prof.SongUpdate) (now : Nat)
    (fsOk : Bool) (t : String)
    (hs1 : 1 ≤ s.length) (hs2 : s.length ≤ 200)
    (hy : y < 1800 ∨ cy < y)
    (hmem : ∃ r ∈ disk.songs, r.id = song_id)
    (hut : u.titulo = some t) (htlen : t.length = 0) :
    Prof.validate_update cy ⟨none, none, none, none, i, u2, c⟩ =
        Except.error Prof.ValErr.noFieldsForUpdate ∧
      (∀ (q : Prof.RawUpdate) (s2 : String), q.titulo = some s2 →
        (s2.length < 1 ∨ 200 < s2.length) →
        Prof.validate_update cy q = Except.error Prof.ValErr.tituloLength) ∧
      Prof.validate_update cy ⟨none, none, none, some y, i, u2, c⟩ =
        Except.error Prof.ValErr.anioRange ∧
      Prof.validate_update cy ⟨some s, none, none, none, i, u2, c⟩ =
        Except.ok ⟨some (pyStrip s), none, none, none⟩ ∧
      Prof.update_song cy disk song_id u now fsOk =
        (disk, Except.error Prof.DBError.databaseWriteError) := by
  refine ⟨rfl, ?_, ?_, ?_, ?_⟩
  · intro q s2 hq hlen
    obtain ⟨qt, qa, qb, qy, qi, qu, qc⟩ := q
    cases hq
    simp only [Prof.validate_update, Prof.checkOptStr]
    rw [if_pos hlen]
  · simp only [Prof.validate_update, Prof.checkOptStr, Prof.checkAlbum,
      Prof.checkAnio]
    rw [if_pos hy]
  · simp only [Prof.validate_update, Prof.checkOptStr, Prof.checkAlbum,
      Prof.checkAnio]
    rw [if_neg (by omega)]
    simp
  · apply update_song_invalid fsOk hmem
    intro r
    apply revalidateSong_none_of_empty_titulo
    simp [Prof.mergeUpdate, hut, htlen]

/-- C7, witness: the amended theorem at title `"  "`, year 1799, and the
whitespace-only update applied to a one-record store. -/
theorem c7_witness :
    ((1 ≤ ("  " : String).length ∧ ("  " : String).length ≤ 200) ∧
      ((1799 : Int) < 1800 ∨ (2026 : Int) < 1799) ∧
      (∃ r ∈ W.d1.songs, r.id = 1) ∧
      W.suWS.titulo = some "" ∧ ("" : String).length = 0) ∧
      (Prof.validate_update 2026 ⟨none, none, none, none, none, none, none⟩ =
          Except.error Prof.ValErr.noFieldsForUpdate ∧
        (∀ (q : Prof.RawUpdate) (s2 : String), q.titulo = some s2 →
          (s2.length < 1 ∨ 200 < s2.length) →
          Prof.validate_update 2026 q = Except.error Prof.ValErr.tituloLength) ∧
        Prof.validate_update 2026 ⟨none, none, none, some 1799, none, none, none⟩ =
          Except.error Prof.ValErr.anioRange ∧
        Prof.validate_update 2026 ⟨some "  ", none, none, none, none, none, none⟩ =
          Except.ok ⟨some (pyStrip "  "), none, none, none⟩ ∧
        Prof.update_song 2026 W.d1 1 W.suWS 9 true =
          (W.d1, Except.error Prof.DBError.databaseWriteError)) :=
  ⟨⟨⟨by decide, by decide⟩, by decide, by decide, rfl, by decide⟩,
    c7_update_validation 2026 "  " none none none 1799 W.d1 1 W.suWS 9 true ""
      (by decide) (by decide) (by decide) (by decide) rfl (by decide)⟩

/-- C8, counterexample: the length bounds of `SongBase` are checked on the
untrimmed value, so a title of raw length 201 whose trimmed length is 200 is
rejected with the length error — contradicting the claim that trimming
happens before the length checks and that a title whose trimmed length is
within 1–200 is accepted even when the untrimmed value carries surrounding
whitespace. -/
theorem c8_counterexample :
    Prof.validate_create 2026
        ⟨some W.t201, some "a", none, none, none, none, none⟩ =
        Except.error Prof.ValErr.tituloLength ∧
      W.t201.length = 201 ∧ (pyStrip W.t201).length = 200 ∧
      1 ≤ (pyStrip W.t201).length ∧ (pyStrip W.t201).length ≤ 200 :=
  ⟨rfl, by decide, by decide, by decide, by decide⟩

/-- C8, amended: `titulo` and `artista` are trimmed before the emptiness
check, the trimmed value is what gets stored, and a value that is empty after
trimming is rejected with an error distinct from the missing-field error; the
1–200 (resp. 1–100) length bounds, however, apply to the untrimmed value, so a
title with surrounding whitespace is accepted exactly when its raw length is
also within bounds. -/
theorem c8_trim_and_bounds (cy : Int) (s a : String)
    (i : Option Int) (u2 : Option String) (c : Option Nat)
    (hs1 : 1 ≤ s.length) (hs2 : s.length ≤ 200) (hs3 : (pyStrip s).length ≠ 0)
    (ha1 : 1 ≤ a.length) (ha2 : a.length ≤ 100) (ha3 : (pyStrip a).length ≠ 0)
    (w : String) (hw1 : 1 ≤ w.length) (hw2 : w.length ≤ 200)
    (hw3 : (pyStrip w).length = 0) :
    Prof.validate_create cy ⟨some s, some a, none, none, i, u2, c⟩ =
        Except.ok ⟨pyStrip s, pyStrip a, none, none⟩ ∧
      Prof.validate_create cy ⟨none, some a, none, none, i, u2, c⟩ =
        Except.error Prof.ValErr.missingTitulo ∧
      Prof.validate_create cy ⟨some w, some a, none, none, i, u2, c⟩ =
        Except.error Prof.ValErr.tituloEmptyAfterStrip ∧
      Prof.ValErr.tituloEmptyAfterStrip ≠ Prof.ValErr.missingTitulo := by
  refine ⟨?_, rfl, ?_, by decide⟩
  · simp only [Prof.validate_create, Prof.checkRequiredStr, Prof.checkAlbum,
      Prof.checkAnio]
    rw [if_neg (by omega), if_neg hs3, if_neg (by omega), if_neg ha3]
  · simp only [Prof.validate_create, Prof.checkRequiredStr]
    rw [if_neg (by omega), if_pos hw3]

/-- C8, witness: the amended theorem at title `" t "` (stored trimmed as
`"t"`), artist `"a"`, and whitespace-only title `"  "`. -/
theorem c8_witness :
    ((1 ≤ (" t " : String).length ∧ (" t " : String).length ≤ 200 ∧
        (pyStrip " t ").length ≠ 0) ∧
      (1 ≤ ("a" : String).length ∧ ("a" : String).length ≤ 100 ∧
        (pyStrip "a").length ≠ 0) ∧
      (1 ≤ ("  " : String).length ∧ ("  " : String).length ≤ 200 ∧
        (pyStrip "  ").length = 0)) ∧
      (Prof.validate_create 2026 ⟨some " t ", some "a", none, none, none, none,
          none⟩ = Except.ok ⟨pyStrip " t ", pyStrip "a", none, none⟩ ∧
        Prof.validate_create 2026 ⟨none, some "a", none, none, none, none,
          none⟩ = Except.error Prof.ValErr.missingTitulo ∧
        Prof.validate_create 2026 ⟨some "  ", some "a", none, none, none, none,
          none⟩ = Except.error Prof.ValErr.tituloEmptyAfterStrip ∧
        Prof.ValErr.tituloEmptyAfterStrip ≠ Prof.ValErr.missingTitulo) :=
  ⟨⟨⟨by decide, by decide, by decide⟩, ⟨by decide, by decide, by decide⟩,
      ⟨by decide, by decide, by decide⟩⟩,
    c8_trim_and_bounds 2026 " t " "a" none none none (by decide) (by decide)
      (by decide) (by decide) (by decide) (by decide) "  " (by decide)
      (by decide) (by decide)⟩

/-- C9: pagination of the `GET /songs` handler: for a requested `page ≥ 1` the
effective page is the requested one, `per_page` is clamped to `[1, 100]`,
`has_next = (page * per_page) < total`, `has_prev = (page > 1)`, the returned
slice never exceeds `per_page` items, and a page past the last yields an empty
item list rather than an error. -/
theorem c9_pagination (songs : List Prof.Song) (page per_page : Int)
    (hp : 1 ≤ page) :
    (Prof.get_songs songs page per_page).page = page.toNat ∧
      1 ≤ (Prof.get_songs songs page per_page).per_page ∧
      (Prof.get_songs songs page per_page).per_page ≤ 100 ∧
      (Prof.get_songs songs page per_page).total = songs.length ∧
      (Prof.get_songs songs page per_page).has_next =
        decide ((Prof.get_songs songs page per_page).page *
          (Prof.get_songs songs page per_page).per_page < songs.length) ∧
      (Prof.get_songs songs page per_page).has_prev =
        decide (1 < (Prof.get_songs songs page per_page).page) ∧
      (Prof.get_songs songs page per_page).songs.length ≤
        (Prof.get_songs songs page per_page).per_page ∧
      (songs.length ≤ ((Prof.get_songs songs page per_page).page - 1) *
          (Prof.get_songs songs page per_page).per_page →
        (Prof.get_songs songs page per_page).songs = []) := by
  have hmax : max 1 page = page := max_eq_right hp
  have hpmin : (1 : Int) ≤ min 100 (max 1 per_page) :=
    le_min (by norm_num) (le_max_left 1 per_page)
  unfold Prof.get_songs
  simp only [hmax]
  have hp1 : 1 ≤ page.toNat := by omega
  have hpp1 : 1 ≤ (min 100 (max 1 per_page)).toNat := by omega
  have hpp2 : (min 100 (max 1 per_page)).toNat ≤ 100 := by
    have : min 100 (max 1 per_page) ≤ 100 := min_le_left _ _
    omega
  have harith : (page.toNat - 1) * (min 100 (max 1 per_page)).toNat +
      (min 100 (max 1 per_page)).toNat =
      page.toNat * (min 100 (max 1 per_page)).toNat := by
    obtain ⟨n, hn⟩ : ∃ n, page.toNat = n + 1 := ⟨page.toNat - 1, by omega⟩
    rw [hn]
    simp [Nat.succ_mul]
  refine ⟨by trivial, hpp1, hpp2, by trivial, ?_, by trivial, ?_, ?_⟩
  · rw [harith]
  · exact List.length_take_le _ _
  · intro hle
    rw [List.drop_eq_nil_of_le hle]
    simp

/-- C9, witness: with 3 records and `per_page = 1`, page 1 yields 1 item with
`has_next = true`, `has_prev = false`, and page 4 yields an empty slice. -/
theorem c9_witness :
    ((1 : Int) ≤ 4 ∧
      ((Prof.get_songs W.d3.songs 4 1).page = (4 : Int).toNat ∧
        1 ≤ (Prof.get_songs W.d3.songs 4 1).per_page ∧
        (Prof.get_songs W.d3.songs 4 1).per_page ≤ 100 ∧
        (Prof.get_songs W.d3.songs 4 1).total = W.d3.songs.length ∧
        (Prof.get_songs W.d3.songs 4 1).has_next =
          decide ((Prof.get_songs W.d3.songs 4 1).page *
            (Prof.get_songs W.d3.songs 4 1).per_page < W.d3.songs.length) ∧
        (Prof.get_songs W.d3.songs 4 1).has_prev =
          decide (1 < (Prof.get_songs W.d3.songs 4 1).page) ∧
        (Prof.get_songs W.d3.songs 4 1).songs.length ≤
          (Prof.get_songs W.d3.songs 4 1).per_page ∧
        (W.d3.songs.length ≤ ((Prof.get_songs W.d3.songs 4 1).page - 1) *
            (Prof.get_songs W.d3.songs 4 1).per_page →
          (Prof.get_songs W.d3.songs 4 1).songs = []))) ∧
      ((Prof.get_songs W.d3.songs 1 1).songs.length = 1 ∧
        (Prof.get_songs W.d3.songs 1 1).has_next = true ∧
        (Prof.get_songs W.d3.songs 1 1).has_prev = false ∧
        (Prof.get_songs W.d3.songs 4 1).songs = []) :=
  ⟨⟨by decide, c9_pagination W.d3.songs 4 1 (by decide)⟩,
    by decide, by decide, by decide, by decide⟩

/-- C10: with duplicate ids in the document the operations disagree:
`get_song_by_id` returns the first record in file order whose id matches,
`update_song`'s search loop merges only that first record and leaves every
later record untouched even when it carries the same id, while `delete_song`
removes every record whose id matches in a single call. -/
theorem c10_duplicate_id_disagreement (cy : Int) (disk : Prof.Document)
    (song_id : Int) (pre : List Prof.Song) (cur : Prof.Song)
    (post : List Prof.Song) (u : Prof.SongUpdate) (now : Nat)
    (upd : Prof.Song)
    (hsongs : disk.songs = pre ++ cur :: post)
    (hpre : ∀ t ∈ pre, t.id ≠ song_id) (hcur : cur.id = song_id)
    (hstore : Prof.StoreOk cy disk)
    (hrv : Prof.revalidateSong cy (Prof.mergeUpdate cur u now) = some upd) :
    Prof.get_song_by_id cy disk song_id = some cur ∧
      Prof.update_in_list cy disk.songs song_id u now =
        Except.ok (pre ++ upd :: post, upd) ∧
      (Prof.delete_song disk song_id now true).1.songs =
        disk.songs.filter (fun s => s.id ≠ song_id) ∧
      (∀ t ∈ (Prof.delete_song disk song_id now true).1.songs,
        t.id ≠ song_id) := by
  have hget : Prof.get_song_by_id cy disk song_id = some cur := by
    unfold Prof.get_song_by_id
    rw [get_all_songs_of_storeOk hstore, hsongs]
    exact find?_first hpre hcur
  have hupd : Prof.update_in_list cy disk.songs song_id u now =
      Except.ok (pre ++ upd :: post, upd) := by
    rw [hsongs, update_in_list_found hpre hcur, hrv]
  have hmem : ∃ s ∈ disk.songs, s.id = song_id :=
    ⟨cur, by rw [hsongs]; simp, hcur⟩
  have hdel := (delete_song_match hmem now).1
  refine ⟨hget, hupd, ?_, ?_⟩
  · rw [hdel]
  · intro t ht
    rw [hdel] at ht
    exact mem_filter_ne ht

/-- C10, witness: a store holding two records that both carry id 1 — get
returns the first, update touches only the first, delete removes both. -/
theorem c10_witness :
    (W.dDup.songs = [] ++ W.songA :: [W.songB] ∧
      (∀ t ∈ ([] : List Prof.Song), t.id ≠ 1) ∧ W.songA.id = 1 ∧
      Prof.StoreOk 2026 W.dDup ∧
      Prof.revalidateSong 2026 (Prof.mergeUpdate W.songA W.upAlbum 9) =
        some ⟨1, "ua", "ta", "aa", some "X", none, 0, 9⟩) ∧
      (Prof.get_song_by_id 2026 W.dDup 1 = some W.songA ∧
        Prof.update_in_list 2026 W.dDup.songs 1 W.upAlbum 9 =
          Except.ok ([] ++ (⟨1, "ua", "ta", "aa", some "X", none, 0, 9⟩ :
            Prof.Song) :: [W.songB],
            ⟨1, "ua", "ta", "aa", some "X", none, 0, 9⟩) ∧
        (Prof.delete_song W.dDup 1 9 true).1.songs =
          W.dDup.songs.filter (fun s => s.id ≠ 1) ∧
        (∀ t ∈ (Prof.delete_song W.dDup 1 9 true).1.songs, t.id ≠ 1)) :=
  ⟨⟨rfl, by decide, by decide, by decide, by decide⟩,
    c10_duplicate_id_disagreement 2026 W.dDup 1 [] W.songA [W.songB]
      W.upAlbum 9 ⟨1, "ua", "ta", "aa", some "X", none, 0, 9⟩ rfl (by decide)
      (by decide) (by decide) (by decide)⟩
